import Mathlib

/-!
Shallow embedding of the request-handling layer of the GToolbox backend
(`backend/gmail_app/views.py`).  Each Django REST view method is embedded as a
pure Lean function from a request record (mirroring `request.data.get(key,
default)` with `Option` fields resolved by `Option.getD`) to an HTTP response
(status code plus the ordered list of body fields) paired with the list of
side effects the handler performs (Celery task enqueues, remote Gmail API
calls, credential upserts).  External outcomes (Celery task ids, remote-call
results, token-exchange results) are supplied as parameters, and the effect
list records which external calls the handler actually issued.
-/

namespace GToolbox

/-- JSON-like values appearing in request/response bodies. -/
inductive JVal where
  | s : String → JVal
  | n : Int → JVal
  | b : Bool → JVal
  | obj : List (String × JVal) → JVal
  | arr : List JVal → JVal
  | null : JVal

/-- An HTTP response: status code and the ordered body fields
(the order of keys as they are written in the source dict literal). -/
structure HttpResponse where
  code : Nat
  body : List (String × JVal)

/-- Side effects a view handler can perform: enqueueing a Celery background
task (`...task.delay(...)` in the source) or making a remote Gmail API call
through `GmailOperations`, plus the OAuth credential upsert. -/
inductive Effect where
  | bulkDeleteTask (user_id : Nat) (message_ids : List String)
      (permanent : Bool) (batch_size : Int)
  | bulkRecoverTask (user_id : Nat) (message_ids : List String)
      (batch_size : Int)
  | deleteByQueryTask (user_id : Nat) (search_query : String)
      (max_emails : Int) (permanent : Bool)
  | recoverByQueryTask (user_id : Nat) (search_query : String)
      (max_emails : Int)
  | getEmailMetadata (message_ids : List String)
  | searchEmails (query : String) (max_results : Int)
  | storeCredential (user_id : Nat) (scopes : List String)
  deriving DecidableEq

/-- First-match field lookup in an ordered body (dict key lookup). -/
def getField : List (String × JVal) → String → Option JVal
  | [], _ => none
  | (k, v) :: rest, key => if k = key then some v else getField rest key

/-- The body's field names in source order. -/
def fieldNames (r : HttpResponse) : List String :=
  r.body.map Prod.fst

/-- A 400 response with a single `error` field, as the views build it. -/
def err400 (msg : String) : HttpResponse :=
  { code := 400, body := [("error", JVal.s msg)] }

/-! ## Bulk delete / bulk recover views -/

/-- Request body of `BulkEmailDeleteView.post`; `none` means the key is
absent, so `request.data.get('message_ids', [])` is `message_ids.getD []`,
`request.data.get('permanent', False)` is `permanent.getD false`, and
`request.data.get('batch_size', 100)` is `batch_size.getD 100`. -/
structure BulkDeleteRequest where
  message_ids : Option (List String) := none
  permanent : Option Bool := none
  batch_size : Option Int := none

/-- Request body of `BulkEmailRecoverView.post`. -/
structure BulkRecoverRequest where
  message_ids : Option (List String) := none
  batch_size : Option Int := none

/-- `BulkEmailDeleteView.post` (views.py lines 641-672).  `taskId` is the id
Celery assigns to the enqueued task (`task.id`); the enqueue itself is
recorded in the effect list.  `if not message_ids` is the Python emptiness
test on the list. -/
def bulkEmailDeletePost (userId : Nat) (r : BulkDeleteRequest)
    (taskId : String) : HttpResponse × List Effect :=
  let message_ids := r.message_ids.getD []
  let permanent := r.permanent.getD false
  let batch_size := r.batch_size.getD 100
  if message_ids = [] then
    (err400 "message_ids required", [])
  else if message_ids.length > 10000 then
    (err400 "Too many emails (max 10,000 per operation)", [])
  else
    ({ code := 200,
       body := [("status", JVal.s "started"),
                ("task_id", JVal.s taskId),
                ("total_emails", JVal.n message_ids.length),
                ("permanent", JVal.b permanent),
                ("message", JVal.s "Bulk deletion started. Use task_id to check progress.")] },
     [Effect.bulkDeleteTask userId message_ids permanent (min batch_size 500)])

/-- `BulkEmailRecoverView.post` (views.py lines 684-712). -/
def bulkEmailRecoverPost (userId : Nat) (r : BulkRecoverRequest)
    (taskId : String) : HttpResponse × List Effect :=
  let message_ids := r.message_ids.getD []
  let batch_size := r.batch_size.getD 100
  if message_ids = [] then
    (err400 "message_ids required", [])
  else if message_ids.length > 10000 then
    (err400 "Too many emails (max 10,000 per operation)", [])
  else
    ({ code := 200,
       body := [("status", JVal.s "started"),
                ("task_id", JVal.s taskId),
                ("total_emails", JVal.n message_ids.length),
                ("message", JVal.s "Bulk recovery started. Use task_id to check progress.")] },
     [Effect.bulkRecoverTask userId message_ids (min batch_size 500)])

/-! ## Task status view -/

/-- A Celery `AsyncResult` as the view reads it: the task state string and
the task payload.  In Celery, `result.info` and `result.result` are the same
underlying attribute (`info` is an alias of `result`), so one field models
both. -/
structure AsyncResult where
  state : String
  result : JVal

/-- Python `d.get(key, default)` on a JSON value: key lookup when the value
is a dict, otherwise the default (in the source a non-dict payload would
raise; no claim evaluates the view there). -/
def jget (v : JVal) (key : String) (dflt : JVal) : JVal :=
  match v with
  | JVal.obj fields => (getField fields key).getD dflt
  | _ => dflt

/-- Python truthiness of a JSON value (`if result.info:`). -/
def jtruthy : JVal → Bool
  | JVal.s s => s != ""
  | JVal.n i => i != 0
  | JVal.b b => b
  | JVal.obj l => !l.isEmpty
  | JVal.arr l => !l.isEmpty
  | JVal.null => false

/-- Python `str(...)` rendering used only for the FAILURE error text
(approximate for containers; no claim depends on this text). -/
def jtext : JVal → String
  | JVal.s s => s
  | JVal.n i => toString i
  | JVal.b b => if b then "True" else "False"
  | JVal.obj _ => "<dict>"
  | JVal.arr _ => "<list>"
  | JVal.null => "None"

/-- `TaskStatusView.get` (views.py lines 724-767).  Any state other than
PENDING, PROGRESS or SUCCESS falls into the `else` branch and is reported as
FAILURE. -/
def taskStatusGet (task_id : String) (res : AsyncResult) : HttpResponse :=
  if res.state = "PENDING" then
    { code := 200,
      body := [("task_id", JVal.s task_id),
               ("status", JVal.s "PENDING"),
               ("progress", JVal.obj
                 [("current", JVal.n 0),
                  ("total", JVal.n 0),
                  ("message", JVal.s "Task is waiting to start")])] }
  else if res.state = "PROGRESS" then
    { code := 200,
      body := [("task_id", JVal.s task_id),
               ("status", JVal.s "PROGRESS"),
               ("progress", JVal.obj
                 [("current", jget res.result "current" (JVal.n 0)),
                  ("total", jget res.result "total" (JVal.n 0)),
                  ("message", jget res.result "message" (JVal.s "Processing..."))])] }
  else if res.state = "SUCCESS" then
    { code := 200,
      body := [("task_id", JVal.s task_id),
               ("status", JVal.s "SUCCESS"),
               ("result", res.result),
               ("progress", JVal.obj
                 [("current", jget res.result "total" (JVal.n 0)),
                  ("total", jget res.result "total" (JVal.n 0)),
                  ("message", JVal.s "Completed successfully")])] }
  else
    { code := 200,
      body := [("task_id", JVal.s task_id),
               ("status", JVal.s "FAILURE"),
               ("result", JVal.obj
                 [("error", JVal.s
                    (if jtruthy res.result then jtext res.result
                     else "Unknown error"))])] }

/-- The `status` body field of a response as a string (empty when absent or
not a string). -/
def statusStr (r : HttpResponse) : String :=
  match getField r.body "status" with
  | some (JVal.s s) => s
  | _ => ""

/-- The key list of the `progress` body object, `none` when the response has
no `progress` object. -/
def progressKeys (r : HttpResponse) : Option (List String) :=
  match getField r.body "progress" with
  | some (JVal.obj p) => some (p.map Prod.fst)
  | _ => none

/-- A field of the `progress` body object, `none` when the response has no
`progress` object or the field is absent. -/
def progressField (r : HttpResponse) (key : String) : Option JVal :=
  match getField r.body "progress" with
  | some (JVal.obj p) => getField p key
  | _ => none

/-! ## Delete/recover by query views -/

/-- Request body of `DeleteByQueryView.post`: `request.data.get('q', '')`,
`request.data.get('max_emails', 1000)`, `request.data.get('permanent',
False)`. -/
structure DeleteByQueryRequest where
  q : Option String := none
  max_emails : Option Int := none
  permanent : Option Bool := none

/-- Request body of `RecoverByQueryView.post`. -/
structure RecoverByQueryRequest where
  q : Option String := none
  max_emails : Option Int := none

/-- `DeleteByQueryView.post` (views.py lines 782-815).  `if not
search_query` is the Python emptiness test on the string. -/
def deleteByQueryPost (userId : Nat) (r : DeleteByQueryRequest)
    (taskId : String) : HttpResponse × List Effect :=
  let search_query := r.q.getD ""
  let max_emails := r.max_emails.getD 1000
  let permanent := r.permanent.getD false
  if search_query = "" then
    (err400 "q parameter required", [])
  else if max_emails > 10000 then
    (err400 "Maximum 10,000 emails per operation", [])
  else
    ({ code := 200,
       body := [("status", JVal.s "started"),
                ("task_id", JVal.s taskId),
                ("search_query", JVal.s search_query),
                ("max_emails", JVal.n max_emails),
                ("permanent", JVal.b permanent),
                ("message", JVal.s ("Deletion started for up to " ++
                  toString max_emails ++
                  " emails. Use task_id to check progress."))] },
     [Effect.deleteByQueryTask userId search_query max_emails permanent])

/-- `RecoverByQueryView.post` (views.py lines 826-855). -/
def recoverByQueryPost (userId : Nat) (r : RecoverByQueryRequest)
    (taskId : String) : HttpResponse × List Effect :=
  let search_query := r.q.getD ""
  let max_emails := r.max_emails.getD 1000
  if search_query = "" then
    (err400 "q parameter required", [])
  else if max_emails > 10000 then
    (err400 "Maximum 10,000 emails per operation", [])
  else
    ({ code := 200,
       body := [("status", JVal.s "started"),
                ("task_id", JVal.s taskId),
                ("search_query", JVal.s search_query),
                ("max_emails", JVal.n max_emails),
                ("message", JVal.s ("Recovery started for up to " ++
                  toString max_emails ++
                  " emails. Use task_id to check progress."))] },
     [Effect.recoverByQueryTask userId search_query max_emails])

/-! ## Email metadata view -/

/-- Request body of `GmailEmailMetadataView.post`:
`request.data.get('message_ids', [])`. -/
structure MetadataRequest where
  message_ids : Option (List String) := none

/-- The dict returned by the remote metadata call
(`gmail_ops.get_email_metadata`), as the view inspects it: `'error' in
result` and `result['emails']`. -/
structure MetaResult where
  fields : List (String × JVal)

/-- Length of the `emails` entry of a metadata result
(`len(result['emails'])`; the source would raise on a missing or non-list
entry — no claim evaluates the view there). -/
def emailsCount (res : MetaResult) : Nat :=
  match getField res.fields "emails" with
  | some (JVal.arr l) => l.length
  | _ => 0

/-- `GmailEmailMetadataView.post` (views.py lines 429-454).  `remoteResult`
is what `gmail_ops.get_email_metadata(message_ids)` returns; the call itself
is recorded in the effect list, so a run whose effects are `[]` never
reached the remote client. -/
def gmailEmailMetadataPost (r : MetadataRequest) (remoteResult : MetaResult) :
    HttpResponse × List Effect :=
  let message_ids := r.message_ids.getD []
  if message_ids = [] then
    (err400 "message_ids required", [])
  else if message_ids.length > 1000 then
    (err400 "Too many message IDs (max 1000)", [])
  else if (getField remoteResult.fields "error").isSome then
    ({ code := 400, body := remoteResult.fields },
     [Effect.getEmailMetadata message_ids])
  else
    ({ code := 200,
       body := [("status", JVal.s "success"),
                ("data", JVal.obj remoteResult.fields),
                ("count", JVal.n (emailsCount remoteResult))] },
     [Effect.getEmailMetadata message_ids])

/-! ## Query builder and advanced search view -/

/-- The structured filter object consumed by the query builder
(spec section 6: sender, subject, date_from, date_to, has_attachment,
label, min_size, max_size; unset fields omitted). -/
structure SearchFilters where
  sender : Option String := none
  subject : Option String := none
  date_from : Option String := none
  date_to : Option String := none
  has_attachment : Option Bool := none
  label : Option String := none
  min_size : Option Int := none
  max_size : Option Int := none

/-- One optional string-valued filter clause: omitted when the field is
absent or empty. -/
def strClause (tag : String) (v : Option String) : List String :=
  match v with
  | some s => if s = "" then [] else [tag ++ s]
  | none => []

/-- Modelled from the spec: `build_search_query` (the QueryBuilder of spec
section 4.3) lives in `gmail_app/gmail_operations.py`, which is not under
`src/`.  Per the spec it is a pure translator from the structured filter
object to a Gmail query string: fields absent or empty are omitted, every
non-empty field appears in a deterministic order, and an empty filter
object yields an empty string. -/
def build_search_query (f : SearchFilters) : String :=
  let parts :=
    strClause "from:" f.sender ++
    strClause "subject:" f.subject ++
    strClause "after:" f.date_from ++
    strClause "before:" f.date_to ++
    (match f.has_attachment with
     | some true => ["has:attachment"]
     | _ => []) ++
    strClause "label:" f.label ++
    (match f.min_size with
     | some v => ["larger:" ++ toString v]
     | none => []) ++
    (match f.max_size with
     | some v => ["smaller:" ++ toString v]
     | none => [])
  String.intercalate " " parts

/-- Request body of `GmailSearchView.post`: the whole `request.data` is fed
to `build_search_query`, and `max_results` is read from it with default
100. -/
structure AdvancedSearchRequest where
  filters : SearchFilters := {}
  max_results : Option Int := none

/-- Encoding of the filter object echoed back in the `filters_used`
response field. -/
def filtersJVal (f : SearchFilters) : JVal :=
  JVal.obj
    ((match f.sender with | some s => [("sender", JVal.s s)] | none => []) ++
     (match f.subject with | some s => [("subject", JVal.s s)] | none => []) ++
     (match f.date_from with | some s => [("date_from", JVal.s s)] | none => []) ++
     (match f.date_to with | some s => [("date_to", JVal.s s)] | none => []) ++
     (match f.has_attachment with | some b => [("has_attachment", JVal.b b)] | none => []) ++
     (match f.label with | some s => [("label", JVal.s s)] | none => []) ++
     (match f.min_size with | some v => [("min_size", JVal.n v)] | none => []) ++
     (match f.max_size with | some v => [("max_size", JVal.n v)] | none => []))

/-- `GmailSearchView.post` (views.py lines 526-551), the advanced
filter-based search.  `searchResult` is what `gmail_ops.search_emails(query,
max_results)` returns; the call is recorded in the effect list.  The query
is built first, then `if not query` rejects before any remote call. -/
def gmailSearchPost (r : AdvancedSearchRequest)
    (searchResult : List (String × JVal)) : HttpResponse × List Effect :=
  let query := build_search_query r.filters
  let max_results := r.max_results.getD 100
  if query = "" then
    (err400 "No valid search filters provided", [])
  else if (getField searchResult "error").isSome then
    ({ code := 400, body := searchResult },
     [Effect.searchEmails query max_results])
  else
    ({ code := 200,
       body := [("status", JVal.s "success"),
                ("data", JVal.obj searchResult),
                ("filters_used", filtersJVal r.filters),
                ("generated_query", JVal.s query)] },
     [Effect.searchEmails query max_results])

/-! ## OAuth callback view -/

/-- GET parameters of `GoogleOAuthCallbackView.get` (`request.GET.get`
returns `None` for absent parameters; `scope` is read with default `''`). -/
structure OAuthCallbackRequest where
  error : Option String := none
  code : Option String := none
  state : Option String := none
  scope : Option String := none

/-- The parsed token-exchange response dict: only the presence of
`access_token` steers the view. -/
structure TokenResponse where
  access_token : Option String := none
  refresh_token : Option String := none
  expires_in : Option Int := none

/-- Outcomes of the external steps of the OAuth callback: the frontend URL
setting, the user lookup from the `state` parameter
(`User.objects.get(id=int(state))`, `none` on DoesNotExist/ValueError), the
token exchange (`exchange_code_for_tokens(code)`, exception modelled as
`Except.error`), and the Gmail address probed after a successful store. -/
structure OAuthEnv where
  frontend_url : String
  userForState : Option Nat
  exchangeResult : Except String TokenResponse
  gmailAddress : String

/-- Python `if not param` falsiness for an optional GET parameter: absent
or empty string. -/
def pyBlank : Option String → Bool
  | none => true
  | some s => s = ""

/-- Accumulator pass splitting a character list at spaces, dropping empty
words. -/
def splitWordsAux : List Char → List Char → List String
  | [], acc => if acc = [] then [] else [String.mk acc.reverse]
  | c :: cs, acc =>
      if c = ' ' then
        (if acc = [] then [] else [String.mk acc.reverse]) ++ splitWordsAux cs []
      else splitWordsAux cs (c :: acc)

/-- Whitespace split of the `scope` parameter (Python `str.split()`;
modelled on single spaces, which is the delimiter OAuth uses). -/
def splitWords (s : String) : List String :=
  splitWordsAux s.toList []

/-- The granted scope list the view derives from the request:
`granted_scopes_param.split() if granted_scopes_param else []`. -/
def grantedScopes (r : OAuthCallbackRequest) : List String :=
  let granted_scopes_param := r.scope.getD ""
  if granted_scopes_param = "" then [] else splitWords granted_scopes_param

/-- The scopes the callback requires. -/
def required_scopes : List String :=
  ["https://www.googleapis.com/auth/gmail.modify"]

/-- A redirect to the frontend dashboard with an error message. -/
def errRedirect (frontend_url msg : String) : String :=
  frontend_url ++ "/dashboard?oauth=error&message=" ++ msg

/-- `GoogleOAuthCallbackView.get` (views.py lines 141-229): returns the
redirect URL and the effect list (the credential upsert
`GoogleOAuthToken.objects.update_or_create` is the only recorded effect).
The trailing Gmail connectivity probe cannot fail the flow; database
exceptions caught by the outer handler are not modelled (no claim concerns
them). -/
def googleOAuthCallbackGet (r : OAuthCallbackRequest) (env : OAuthEnv) :
    String × List Effect :=
  match r.error with
  | some e => (errRedirect env.frontend_url e, [])
  | none =>
    if pyBlank r.state || pyBlank r.code then
      (errRedirect env.frontend_url "missing_parameters", [])
    else
      match env.userForState with
      | none => (errRedirect env.frontend_url "invalid_state", [])
      | some user =>
        match env.exchangeResult with
        | Except.error _ =>
            (errRedirect env.frontend_url "token_exchange_failed", [])
        | Except.ok token_response =>
          if token_response.access_token.isNone then
            (errRedirect env.frontend_url "invalid_token_response", [])
          else
            let granted_scopes := grantedScopes r
            let missing_scopes :=
              required_scopes.filter (fun s => decide (s ∉ granted_scopes))
            if missing_scopes ≠ [] then
              (errRedirect env.frontend_url "missing_scopes", [])
            else
              (env.frontend_url ++ "/dashboard?oauth=success&email=" ++
                 env.gmailAddress,
               [Effect.storeCredential user granted_scopes])

/-! ## Theorems for the claims -/

/-- C1: every bulk delete or bulk recover request whose message_ids list has
length greater than 10000 is rejected synchronously with an error response
(HTTP 400, `Too many emails (max 10,000 per operation)`), and no background
task is created: the effect list is empty, so the worker is never invoked. -/
theorem C1_bulk_over_limit_rejected (userId : Nat) (taskId1 taskId2 : String)
    (rd : BulkDeleteRequest) (rr : BulkRecoverRequest)
    (hd : (rd.message_ids.getD []).length > 10000)
    (hr : (rr.message_ids.getD []).length > 10000) :
    bulkEmailDeletePost userId rd taskId1 =
      (err400 "Too many emails (max 10,000 per operation)", []) ∧
    bulkEmailRecoverPost userId rr taskId2 =
      (err400 "Too many emails (max 10,000 per operation)", []) := by
  have hdne : rd.message_ids.getD [] ≠ [] := by
    intro h0
    rw [h0] at hd
    simp at hd
  have hrne : rr.message_ids.getD [] ≠ [] := by
    intro h0
    rw [h0] at hr
    simp at hr
  constructor
  · simp [bulkEmailDeletePost, hdne, hd]
  · simp [bulkEmailRecoverPost, hrne, hr]

/-- Witness for C1 at a concrete 10001-element id list. -/
theorem C1_bulk_over_limit_rejected_witness :
    (((some (List.replicate 10001 "m") : Option (List String)).getD []).length > 10000) ∧
    (bulkEmailDeletePost 1 { message_ids := some (List.replicate 10001 "m") } "t1" =
       (err400 "Too many emails (max 10,000 per operation)", []) ∧
     bulkEmailRecoverPost 1 { message_ids := some (List.replicate 10001 "m") } "t2" =
       (err400 "Too many emails (max 10,000 per operation)", [])) := by
  have h : ((some (List.replicate 10001 "m") : Option (List String)).getD []).length > 10000 := by
    rw [Option.getD_some, List.length_replicate]
    omega
  exact ⟨h, C1_bulk_over_limit_rejected 1 "t1" "t2" _ _ h h⟩

/-- C2: every accepted bulk delete or bulk recover request hands the worker
batch size `min(requested batch_size, 500)`; a requested value above 500 is
clamped to 500, and an absent batch_size defaults to 100. -/
theorem C2_batch_size_clamped (userId : Nat) (taskId1 taskId2 : String)
    (rd : BulkDeleteRequest) (rr : BulkRecoverRequest)
    (hdne : rd.message_ids.getD [] ≠ [])
    (hdlen : (rd.message_ids.getD []).length ≤ 10000)
    (hrne : rr.message_ids.getD [] ≠ [])
    (hrlen : (rr.message_ids.getD []).length ≤ 10000) :
    (bulkEmailDeletePost userId rd taskId1).2 =
      [Effect.bulkDeleteTask userId (rd.message_ids.getD [])
        (rd.permanent.getD false) (min (rd.batch_size.getD 100) 500)] ∧
    (bulkEmailRecoverPost userId rr taskId2).2 =
      [Effect.bulkRecoverTask userId (rr.message_ids.getD [])
        (min (rr.batch_size.getD 100) 500)] ∧
    (∀ b : Int, rd.batch_size = some b → 500 < b →
      min (rd.batch_size.getD 100) 500 = 500) ∧
    (∀ b : Int, rr.batch_size = some b → 500 < b →
      min (rr.batch_size.getD 100) 500 = 500) ∧
    (rd.batch_size = none → min (rd.batch_size.getD 100) 500 = 100) ∧
    (rr.batch_size = none → min (rr.batch_size.getD 100) 500 = 100) := by
  have hd10 : ¬ (rd.message_ids.getD []).length > 10000 := by omega
  have hr10 : ¬ (rr.message_ids.getD []).length > 10000 := by omega
  refine ⟨?_, ?_, ?_, ?_, ?_, ?_⟩
  · simp [bulkEmailDeletePost, hdne, hd10]
  · simp [bulkEmailRecoverPost, hrne, hr10]
  · intro b hb hgt
    rw [hb, Option.getD_some]
    exact min_eq_right hgt.le
  · intro b hb hgt
    rw [hb, Option.getD_some]
    exact min_eq_right hgt.le
  · intro hb
    rw [hb, Option.getD_none]
    norm_num
  · intro hb
    rw [hb, Option.getD_none]
    norm_num

/-- Witness for C2 at concrete requests: a delete request asking for
batch_size 1200 (clamped to 500) and a recover request with no batch_size
(default 100). -/
theorem C2_batch_size_clamped_witness :
    (bulkEmailDeletePost 1 { message_ids := some ["a", "b"], batch_size := some 1200 } "t1").2 =
      [Effect.bulkDeleteTask 1 ["a", "b"] false (min 1200 500)] ∧
    (bulkEmailRecoverPost 1 { message_ids := some ["a"] } "t2").2 =
      [Effect.bulkRecoverTask 1 ["a"] (min 100 500)] ∧
    min (1200 : Int) 500 = 500 ∧
    min (100 : Int) 500 = 100 := by
  have h := C2_batch_size_clamped 1 "t1" "t2"
    { message_ids := some ["a", "b"], batch_size := some 1200 }
    { message_ids := some ["a"] }
    (by simp) (by simp) (by simp) (by simp)
  exact ⟨h.1, h.2.1, h.2.2.1 1200 rfl (by norm_num), h.2.2.2.2.2 rfl⟩

/-- C3 (amended): the immediate response of an accepted bulk delete request
has exactly the fields status, task_id, total_emails, permanent and message
(a human-readable message field in addition to the four the claim lists),
with status "started" and total_emails the length of the supplied list; the
accepted bulk recover response has fields status, task_id, total_emails and
message, with status "started" and total_emails the supplied list length. -/
theorem C3_bulk_response_shape (userId : Nat) (taskId1 taskId2 : String)
    (rd : BulkDeleteRequest) (rr : BulkRecoverRequest)
    (hdne : rd.message_ids.getD [] ≠ [])
    (hdlen : (rd.message_ids.getD []).length ≤ 10000)
    (hrne : rr.message_ids.getD [] ≠ [])
    (hrlen : (rr.message_ids.getD []).length ≤ 10000) :
    fieldNames (bulkEmailDeletePost userId rd taskId1).1 =
      ["status", "task_id", "total_emails", "permanent", "message"] ∧
    getField (bulkEmailDeletePost userId rd taskId1).1.body "status" =
      some (JVal.s "started") ∧
    getField (bulkEmailDeletePost userId rd taskId1).1.body "task_id" =
      some (JVal.s taskId1) ∧
    getField (bulkEmailDeletePost userId rd taskId1).1.body "total_emails" =
      some (JVal.n (rd.message_ids.getD []).length) ∧
    getField (bulkEmailDeletePost userId rd taskId1).1.body "permanent" =
      some (JVal.b (rd.permanent.getD false)) ∧
    fieldNames (bulkEmailRecoverPost userId rr taskId2).1 =
      ["status", "task_id", "total_emails", "message"] ∧
    getField (bulkEmailRecoverPost userId rr taskId2).1.body "status" =
      some (JVal.s "started") ∧
    getField (bulkEmailRecoverPost userId rr taskId2).1.body "total_emails" =
      some (JVal.n (rr.message_ids.getD []).length) := by
  have hd10 : ¬ (rd.message_ids.getD []).length > 10000 := by omega
  have hr10 : ¬ (rr.message_ids.getD []).length > 10000 := by
    omega
  refine ⟨?_, ?_, ?_, ?_, ?_, ?_, ?_, ?_⟩ <;>
    simp [bulkEmailDeletePost, bulkEmailRecoverPost, hdne, hd10, hrne, hr10,
      fieldNames, getField]

/-- Witness for C3 (amended) at concrete accepted requests. -/
theorem C3_bulk_response_shape_witness :
    fieldNames (bulkEmailDeletePost 1 { message_ids := some ["a", "b"], permanent := some true } "t1").1 =
      ["status", "task_id", "total_emails", "permanent", "message"] ∧
    getField (bulkEmailDeletePost 1 { message_ids := some ["a", "b"], permanent := some true } "t1").1.body
      "total_emails" = some (JVal.n 2) ∧
    fieldNames (bulkEmailRecoverPost 1 { message_ids := some ["c"] } "t2").1 =
      ["status", "task_id", "total_emails", "message"] ∧
    getField (bulkEmailRecoverPost 1 { message_ids := some ["c"] } "t2").1.body
      "status" = some (JVal.s "started") := by
  have h := C3_bulk_response_shape 1 "t1" "t2"
    { message_ids := some ["a", "b"], permanent := some true }
    { message_ids := some ["c"] }
    (by simp) (by simp) (by simp) (by simp)
  exact ⟨h.1, h.2.2.2.1, h.2.2.2.2.2.1, h.2.2.2.2.2.2.1⟩

/-- Counterexample to C3 as stated: the accepted bulk delete response does
not contain exactly the fields task_id, total_emails, permanent and status —
it also contains a message field. -/
theorem C3_counterexample :
    "message" ∈ fieldNames (bulkEmailDeletePost 1 { message_ids := some ["a"] } "t").1 ∧
    "message" ∉ (["task_id", "total_emails", "permanent", "status"] : List String) := by
  constructor
  · simp [bulkEmailDeletePost, fieldNames]
  · simp

/-- C9: every bulk delete, bulk recover or metadata request whose
message_ids list is empty or absent is rejected with a 400
`message_ids required` error and performs no effect (no task enqueued, no
remote call). -/
theorem C9_missing_ids_rejected (userId : Nat) (taskId1 taskId2 : String)
    (rd : BulkDeleteRequest) (rr : BulkRecoverRequest) (rm : MetadataRequest)
    (res : MetaResult)
    (hd : rd.message_ids = none ∨ rd.message_ids = some [])
    (hr : rr.message_ids = none ∨ rr.message_ids = some [])
    (hm : rm.message_ids = none ∨ rm.message_ids = some []) :
    bulkEmailDeletePost userId rd taskId1 = (err400 "message_ids required", []) ∧
    bulkEmailRecoverPost userId rr taskId2 = (err400 "message_ids required", []) ∧
    gmailEmailMetadataPost rm res = (err400 "message_ids required", []) := by
  have hd0 : rd.message_ids.getD [] = [] := by
    rcases hd with h | h <;> simp [h]
  have hr0 : rr.message_ids.getD [] = [] := by
    rcases hr with h | h <;> simp [h]
  have hm0 : rm.message_ids.getD [] = [] := by
    rcases hm with h | h <;> simp [h]
  refine ⟨?_, ?_, ?_⟩
  · simp [bulkEmailDeletePost, hd0]
  · simp [bulkEmailRecoverPost, hr0]
  · simp [gmailEmailMetadataPost, hm0]

/-- Witness for C9: an absent message_ids key for delete and metadata, an
explicit empty list for recover. -/
theorem C9_missing_ids_rejected_witness :
    bulkEmailDeletePost 1 {} "t1" = (err400 "message_ids required", []) ∧
    bulkEmailRecoverPost 1 { message_ids := some [] } "t2" =
      (err400 "message_ids required", []) ∧
    gmailEmailMetadataPost {} ⟨[]⟩ = (err400 "message_ids required", []) :=
  C9_missing_ids_rejected 1 "t1" "t2" {} { message_ids := some [] } {} ⟨[]⟩
    (Or.inl rfl) (Or.inr rfl) (Or.inl rfl)

/-- C4 (amended): every task-status poll reports a status among PENDING,
PROGRESS, SUCCESS and FAILURE; the response carries a progress object with
fields current, total and message exactly when the status is not FAILURE
(the FAILURE response has no progress object); the result field appears
exactly for the terminal states SUCCESS and FAILURE. -/
theorem C4_task_status_shape (task_id : String) (res : AsyncResult) :
    statusStr (taskStatusGet task_id res) ∈
      (["PENDING", "PROGRESS", "SUCCESS", "FAILURE"] : List String) ∧
    progressKeys (taskStatusGet task_id res) =
      (if statusStr (taskStatusGet task_id res) = "FAILURE" then none
       else some ["current", "total", "message"]) ∧
    ((getField (taskStatusGet task_id res).body "result").isSome ↔
      (statusStr (taskStatusGet task_id res) = "SUCCESS" ∨
       statusStr (taskStatusGet task_id res) = "FAILURE")) := by
  by_cases h1 : res.state = "PENDING"
  · simp [taskStatusGet, h1, statusStr, progressKeys, getField]
  · by_cases h2 : res.state = "PROGRESS"
    · simp [taskStatusGet, h1, h2, statusStr, progressKeys, getField]
    · by_cases h3 : res.state = "SUCCESS"
      · simp [taskStatusGet, h1, h2, h3, statusStr, progressKeys, getField]
      · by_cases h4 : jtruthy res.result = true
        · simp [taskStatusGet, h1, h2, h3, h4, statusStr, progressKeys, getField]
        · simp [taskStatusGet, h1, h2, h3, h4, statusStr, progressKeys, getField]

/-- Counterexample to C4 as stated: a poll of a task in the FAILURE state
returns a response with no progress object at all. -/
theorem C4_counterexample :
    statusStr (taskStatusGet "t" (AsyncResult.mk "FAILURE" JVal.null)) = "FAILURE" ∧
    getField (taskStatusGet "t" (AsyncResult.mk "FAILURE" JVal.null)).body "progress" = none := by
  constructor <;> rfl

/-- C10: polling a task in the SUCCESS state reports progress.current equal
to progress.total, both read from the total field of the task result; polling
a PENDING task reports progress.current = progress.total = 0 whatever the
task payload is. -/
theorem C10_progress_totals (task_id : String) (res : AsyncResult) :
    (res.state = "SUCCESS" →
      progressField (taskStatusGet task_id res) "current" =
        progressField (taskStatusGet task_id res) "total" ∧
      progressField (taskStatusGet task_id res) "current" =
        some (jget res.result "total" (JVal.n 0))) ∧
    (res.state = "PENDING" →
      progressField (taskStatusGet task_id res) "current" = some (JVal.n 0) ∧
      progressField (taskStatusGet task_id res) "total" = some (JVal.n 0)) := by
  constructor
  · intro h
    simp [taskStatusGet, h, progressField, getField]
  · intro h
    simp [taskStatusGet, h, progressField, getField]

/-- Witness for C10: a SUCCESS task whose result reports total 7, and a
PENDING task with a nontrivial payload. -/
theorem C10_progress_totals_witness :
    (progressField (taskStatusGet "t1"
        (AsyncResult.mk "SUCCESS" (JVal.obj [("total", JVal.n 7)]))) "current" =
      progressField (taskStatusGet "t1"
        (AsyncResult.mk "SUCCESS" (JVal.obj [("total", JVal.n 7)]))) "total" ∧
     progressField (taskStatusGet "t1"
        (AsyncResult.mk "SUCCESS" (JVal.obj [("total", JVal.n 7)]))) "current" =
      some (jget (JVal.obj [("total", JVal.n 7)]) "total" (JVal.n 0))) ∧
    (progressField (taskStatusGet "t2"
        (AsyncResult.mk "PENDING" (JVal.obj [("total", JVal.n 9)]))) "current" =
      some (JVal.n 0) ∧
     progressField (taskStatusGet "t2"
        (AsyncResult.mk "PENDING" (JVal.obj [("total", JVal.n 9)]))) "total" =
      some (JVal.n 0)) :=
  ⟨(C10_progress_totals "t1" (AsyncResult.mk "SUCCESS" (JVal.obj [("total", JVal.n 7)]))).1 rfl,
   (C10_progress_totals "t2" (AsyncResult.mk "PENDING" (JVal.obj [("total", JVal.n 9)]))).2 rfl⟩

/-- C5: a delete-by-query or recover-by-query request with an empty query
string, and an advanced filter search whose filter object builds to an empty
query string, are each rejected with an error before any task is scheduled
or remote call is made (the effect list is empty). -/
theorem C5_empty_query_rejected (userId : Nat) (taskId1 taskId2 : String)
    (rd : DeleteByQueryRequest) (rr : RecoverByQueryRequest)
    (ra : AdvancedSearchRequest) (searchResult : List (String × JVal))
    (hd : rd.q.getD "" = "") (hr : rr.q.getD "" = "")
    (ha : build_search_query ra.filters = "") :
    deleteByQueryPost userId rd taskId1 = (err400 "q parameter required", []) ∧
    recoverByQueryPost userId rr taskId2 = (err400 "q parameter required", []) ∧
    gmailSearchPost ra searchResult =
      (err400 "No valid search filters provided", []) := by
  refine ⟨?_, ?_, ?_⟩
  · simp [deleteByQueryPost, hd]
  · simp [recoverByQueryPost, hr]
  · simp [gmailSearchPost, ha]

/-- Witness for C5: absent q parameters and the empty filter object (which
the builder maps to the empty string). -/
theorem C5_empty_query_rejected_witness :
    build_search_query ({} : SearchFilters) = "" ∧
    (deleteByQueryPost 1 {} "t1" = (err400 "q parameter required", []) ∧
     recoverByQueryPost 1 {} "t2" = (err400 "q parameter required", []) ∧
     gmailSearchPost {} [] = (err400 "No valid search filters provided", [])) :=
  ⟨rfl, C5_empty_query_rejected 1 "t1" "t2" {} {} {} [] rfl rfl rfl⟩

/-- C6 (amended): a delete-by-query or recover-by-query request with
max_emails greater than 10000 is rejected with an error and no task is
started; a request with a non-empty query and max_emails at most 10000
(default 1000 when absent) schedules a task carrying that max_emails
value. -/
theorem C6_max_emails_validation (userId : Nat) (taskId1 taskId2 : String)
    (rd : DeleteByQueryRequest) (rr : RecoverByQueryRequest) :
    (rd.max_emails.getD 1000 > 10000 →
      (deleteByQueryPost userId rd taskId1).1.code = 400 ∧
      (deleteByQueryPost userId rd taskId1).2 = []) ∧
    (rr.max_emails.getD 1000 > 10000 →
      (recoverByQueryPost userId rr taskId2).1.code = 400 ∧
      (recoverByQueryPost userId rr taskId2).2 = []) ∧
    (rd.q.getD "" ≠ "" → rd.max_emails.getD 1000 ≤ 10000 →
      (deleteByQueryPost userId rd taskId1).2 =
        [Effect.deleteByQueryTask userId (rd.q.getD "")
          (rd.max_emails.getD 1000) (rd.permanent.getD false)]) ∧
    (rr.q.getD "" ≠ "" → rr.max_emails.getD 1000 ≤ 10000 →
      (recoverByQueryPost userId rr taskId2).2 =
        [Effect.recoverByQueryTask userId (rr.q.getD "")
          (rr.max_emails.getD 1000)]) ∧
    (rd.max_emails = none → rd.max_emails.getD 1000 = 1000) ∧
    (rr.max_emails = none → rr.max_emails.getD 1000 = 1000) := by
  refine ⟨?_, ?_, ?_, ?_, ?_, ?_⟩
  · intro hmax
    by_cases hq : rd.q.getD "" = ""
    · simp [deleteByQueryPost, hq, err400]
    · simp [deleteByQueryPost, hq, hmax, err400]
  · intro hmax
    by_cases hq : rr.q.getD "" = ""
    · simp [recoverByQueryPost, hq, err400]
    · simp [recoverByQueryPost, hq, hmax, err400]
  · intro hq hmax
    have hm : ¬ rd.max_emails.getD 1000 > 10000 := by omega
    simp [deleteByQueryPost, hq, hm]
  · intro hq hmax
    have hm : ¬ rr.max_emails.getD 1000 > 10000 := by omega
    simp [recoverByQueryPost, hq, hm]
  · intro h
    rw [h, Option.getD_none]
  · intro h
    rw [h, Option.getD_none]

/-- Witness for C6 (amended): oversized max_emails requests are rejected
with no effect; in-range requests with a non-empty query are scheduled with
the requested (or default) max_emails. -/
theorem C6_max_emails_validation_witness :
    ((deleteByQueryPost 1 { q := some "spam", max_emails := some 20000 } "t1").1.code = 400 ∧
     (deleteByQueryPost 1 { q := some "spam", max_emails := some 20000 } "t1").2 = []) ∧
    ((recoverByQueryPost 1 { q := some "spam", max_emails := some 20000 } "t2").1.code = 400 ∧
     (recoverByQueryPost 1 { q := some "spam", max_emails := some 20000 } "t2").2 = []) ∧
    (deleteByQueryPost 2 { q := some "older_than:1y", max_emails := some 5000 } "t3").2 =
      [Effect.deleteByQueryTask 2 "older_than:1y" 5000 false] ∧
    (recoverByQueryPost 2 { q := some "in:trash" } "t4").2 =
      [Effect.recoverByQueryTask 2 "in:trash" 1000] := by
  refine ⟨?_, ?_, ?_, ?_⟩
  · exact (C6_max_emails_validation 1 "t1" "t2"
      { q := some "spam", max_emails := some 20000 }
      { q := some "spam", max_emails := some 20000 }).1 (by norm_num)
  · exact (C6_max_emails_validation 1 "t1" "t2"
      { q := some "spam", max_emails := some 20000 }
      { q := some "spam", max_emails := some 20000 }).2.1 (by norm_num)
  · exact (C6_max_emails_validation 2 "t3" "t4"
      { q := some "older_than:1y", max_emails := some 5000 }
      { q := some "in:trash" }).2.2.1 (by simp) (by norm_num)
  · exact (C6_max_emails_validation 2 "t3" "t4"
      { q := some "older_than:1y", max_emails := some 5000 }
      { q := some "in:trash" }).2.2.2.1 (by simp) (by norm_num)

/-- Counterexample to C6 as stated: a delete-by-query request with
max_emails 1000 (at most 10000) but an absent query does not proceed to
schedule a task — it is rejected and the effect list stays empty. -/
theorem C6_counterexample :
    (deleteByQueryPost 1 { max_emails := some 1000 } "t").2 = [] ∧
    (deleteByQueryPost 1 { max_emails := some 1000 } "t").1 =
      err400 "q parameter required" := by
  constructor <;> rfl

/-- C7 (amended): a metadata request with more than 1000 message ids is
rejected with an error before any remote call; a request with a non-empty
list of at most 1000 ids is passed through to the remote client (the
metadata call effect is issued with exactly those ids). -/
theorem C7_metadata_limit (rm : MetadataRequest) (res : MetaResult) :
    ((rm.message_ids.getD []).length > 1000 →
      gmailEmailMetadataPost rm res =
        (err400 "Too many message IDs (max 1000)", [])) ∧
    (rm.message_ids.getD [] ≠ [] → (rm.message_ids.getD []).length ≤ 1000 →
      (gmailEmailMetadataPost rm res).2 =
        [Effect.getEmailMetadata (rm.message_ids.getD [])]) := by
  constructor
  · intro hlen
    have hne : rm.message_ids.getD [] ≠ [] := by
      intro h0
      rw [h0] at hlen
      simp at hlen
    simp [gmailEmailMetadataPost, hne, hlen]
  · intro hne hlen
    have h1000 : ¬ (rm.message_ids.getD []).length > 1000 := by omega
    by_cases herr : (getField res.fields "error").isSome
    · simp [gmailEmailMetadataPost, hne, h1000, herr]
    · simp [gmailEmailMetadataPost, hne, h1000, herr]

/-- Witness for C7 (amended): a 1001-id request is rejected with no remote
call; a two-id request reaches the remote client. -/
theorem C7_metadata_limit_witness :
    gmailEmailMetadataPost { message_ids := some (List.replicate 1001 "m") } ⟨[]⟩ =
      (err400 "Too many message IDs (max 1000)", []) ∧
    (gmailEmailMetadataPost { message_ids := some ["a", "b"] } ⟨[]⟩).2 =
      [Effect.getEmailMetadata ["a", "b"]] := by
  have hlen : (((some (List.replicate 1001 "m") : Option (List String))).getD []).length > 1000 := by
    rw [Option.getD_some, List.length_replicate]
    omega
  exact ⟨(C7_metadata_limit { message_ids := some (List.replicate 1001 "m") } ⟨[]⟩).1 hlen,
    (C7_metadata_limit { message_ids := some ["a", "b"] } ⟨[]⟩).2
      (by simp) (by simp)⟩

/-- Counterexample to C7 as stated: a metadata request with an empty
message_ids list has at most 1000 ids yet is not passed through to the
remote client — it is rejected with `message_ids required` and no remote
call is made. -/
theorem C7_counterexample :
    (([] : List String)).length ≤ 1000 ∧
    gmailEmailMetadataPost { message_ids := some [] } ⟨[]⟩ =
      (err400 "message_ids required", []) := by
  constructor
  · simp
  · rfl

/-- C8 (amended): whenever the granted scope set of an OAuth callback does
not contain https://www.googleapis.com/auth/gmail.modify, no credential is
stored (the effect list is empty, so the credential upsert never executes);
and if the callback additionally carries no error parameter, has non-blank
code and state, a resolvable user, and a token exchange that succeeds with
an access token, the redirect is the missing_scopes error redirect. -/
theorem C8_missing_scope (r : OAuthCallbackRequest) (env : OAuthEnv)
    (hscope : "https://www.googleapis.com/auth/gmail.modify" ∉ grantedScopes r) :
    (googleOAuthCallbackGet r env).2 = [] ∧
    (r.error = none → pyBlank r.state = false → pyBlank r.code = false →
      ∀ u t, env.userForState = some u → env.exchangeResult = Except.ok t →
        t.access_token.isSome →
        (googleOAuthCallbackGet r env).1 =
          errRedirect env.frontend_url "missing_scopes") := by
  have hmem : ∃ x ∈ required_scopes, x ∉ grantedScopes r :=
    ⟨"https://www.googleapis.com/auth/gmail.modify", by simp [required_scopes], hscope⟩
  constructor
  · cases herr : r.error with
    | some e => simp [googleOAuthCallbackGet, herr]
    | none =>
      by_cases hblank : (pyBlank r.state || pyBlank r.code) = true
      · simp [googleOAuthCallbackGet, herr, hblank]
      · cases huser : env.userForState with
        | none => simp [googleOAuthCallbackGet, herr, hblank, huser]
        | some u =>
          cases hex : env.exchangeResult with
          | error msg => simp [googleOAuthCallbackGet, herr, hblank, huser, hex]
          | ok t =>
            by_cases hat : t.access_token.isNone
            · simp [googleOAuthCallbackGet, herr, hblank, huser, hex, hat]
            · simp [googleOAuthCallbackGet, herr, hblank, huser, hex, hat, hmem]
  · intro herr hst hcd u t huser hex hat
    have hblank : (pyBlank r.state || pyBlank r.code) = false := by
      rw [hst, hcd]
      rfl
    have hnone : t.access_token.isNone = false := by
      cases h : t.access_token with
      | none => rw [h] at hat; simp at hat
      | some a => rfl
    simp [googleOAuthCallbackGet, herr, hblank, huser, hex, hnone, hmem]

/-- Witness for C8 (amended): a callback granting only gmail.readonly, with
valid parameters, user and token exchange, redirects to missing_scopes and
stores nothing. -/
theorem C8_missing_scope_witness :
    "https://www.googleapis.com/auth/gmail.modify" ∉
      grantedScopes (OAuthCallbackRequest.mk none (some "c") (some "s")
        (some "https://www.googleapis.com/auth/gmail.readonly")) ∧
    (googleOAuthCallbackGet
        (OAuthCallbackRequest.mk none (some "c") (some "s")
          (some "https://www.googleapis.com/auth/gmail.readonly"))
        (OAuthEnv.mk "http://localhost:3000" (some 1)
          (Except.ok (TokenResponse.mk (some "a") none none)) "x")).2 = [] ∧
    (googleOAuthCallbackGet
        (OAuthCallbackRequest.mk none (some "c") (some "s")
          (some "https://www.googleapis.com/auth/gmail.readonly"))
        (OAuthEnv.mk "http://localhost:3000" (some 1)
          (Except.ok (TokenResponse.mk (some "a") none none)) "x")).1 =
      errRedirect "http://localhost:3000" "missing_scopes" := by
  have hscope : "https://www.googleapis.com/auth/gmail.modify" ∉
      grantedScopes (OAuthCallbackRequest.mk none (some "c") (some "s")
        (some "https://www.googleapis.com/auth/gmail.readonly")) := by
    decide
  have h := C8_missing_scope
    (OAuthCallbackRequest.mk none (some "c") (some "s")
      (some "https://www.googleapis.com/auth/gmail.readonly"))
    (OAuthEnv.mk "http://localhost:3000" (some 1)
      (Except.ok (TokenResponse.mk (some "a") none none)) "x")
    hscope
  exact ⟨hscope, h.1, h.2 rfl rfl rfl 1 (TokenResponse.mk (some "a") none none) rfl rfl rfl⟩

/-- Counterexample to C8 as stated: a callback in which the user denied
consent (error parameter set) and no scope was granted does not redirect
with missing_scopes — it redirects with the provider's error message (no
credential is stored either way). -/
theorem C8_counterexample :
    "https://www.googleapis.com/auth/gmail.modify" ∉
      grantedScopes (OAuthCallbackRequest.mk (some "access_denied") none none none) ∧
    (googleOAuthCallbackGet
        (OAuthCallbackRequest.mk (some "access_denied") none none none)
        (OAuthEnv.mk "http://localhost:3000" none
          (Except.error "unused") "x")).1 ≠
      errRedirect "http://localhost:3000" "missing_scopes" ∧
    (googleOAuthCallbackGet
        (OAuthCallbackRequest.mk (some "access_denied") none none none)
        (OAuthEnv.mk "http://localhost:3000" none
          (Except.error "unused") "x")).1 =
      errRedirect "http://localhost:3000" "access_denied" := by
  refine ⟨by decide, ?_, rfl⟩
  intro h
  simp [googleOAuthCallbackGet, errRedirect] at h

end GToolbox
